import Mathlib

/-!
# TimelapseTemplateEditor launcher

A shallow embedding of `WinMain` from
`src/TimelapseTemplateEditor/TimelapseTemplateEditor.cpp`.

The launcher is a straight-line sequence of Win32 calls.  The embedding makes
the operating system an explicit record of answers (`OS`), and `WinMain`
returns the process exit code together with the ordered list of Win32 calls
it performed (`Effect`).  Wide strings are `String`s, one `Char` standing for
one `wchar_t`; a `DWORD` is a `Nat`, reduced modulo `2^32` where the program reads it; `int` is `Int`;
a `HANDLE` is a `Nat` whose null value is `0`.
-/

set_option linter.unusedVariables false

namespace TimelapseTemplateEditor

/-- A Win32 handle or pointer-sized value; null is 0. -/
abbrev HANDLE := Nat

/-- Windows SDK constant MAX_PATH. -/
def MAX_PATH : Nat := 260

/-- Windows SDK constant SEE_MASK_NOCLOSEPROCESS. -/
def SEE_MASK_NOCLOSEPROCESS : Nat := 0x00000040

/-- Windows SDK constant MB_OK. -/
def MB_OK : Nat := 0x00000000

/-- Windows SDK constant MB_ICONERROR. -/
def MB_ICONERROR : Nat := 0x00000010

/-- Windows SDK constant INFINITE. -/
def INFINITE : Nat := 0xFFFFFFFF

/-- The Win32 SHELLEXECUTEINFOW record; a null string pointer is `none`. -/
structure SHELLEXECUTEINFOW where
  cbSize : Nat
  fMask : Nat
  hwnd : HANDLE
  lpVerb : Option String
  lpFile : Option String
  lpParameters : Option String
  lpDirectory : Option String
  nShow : Int
  hInstApp : HANDLE
  lpIDList : HANDLE
  lpClass : Option String
  hkeyClass : HANDLE
  dwHotKey : Nat
  hIcon : HANDLE
  hProcess : HANDLE
deriving DecidableEq, Repr

/-- The aggregate initialiser `{ 0 }`: every member zero or null. -/
def zeroInit : SHELLEXECUTEINFOW :=
  { cbSize := 0, fMask := 0, hwnd := 0, lpVerb := none, lpFile := none,
    lpParameters := none, lpDirectory := none, nShow := 0, hInstApp := 0,
    lpIDList := 0, lpClass := none, hkeyClass := 0, dwHotKey := 0, hIcon := 0,
    hProcess := 0 }

/-- One Win32 call made by the launcher, with the arguments it passed. -/
inductive Effect where
  | GetModuleFileNameW (hModule : HANDLE) (nSize : Nat)
  | PathRemoveFileSpecW (pszPath : String)
  | PathFileExistsW (pszPath : String)
  | MessageBoxW (hWnd : HANDLE) (lpText lpCaption : String) (uType : Nat)
  | ShellExecuteExW (sei : SHELLEXECUTEINFOW)
  | GetLastError
  | WaitForSingleObject (hHandle : HANDLE) (dwMilliseconds : Nat)
  | GetExitCodeProcess (hProcess : HANDLE)
  | CloseHandle (hObject : HANDLE)
deriving DecidableEq, Repr

/-- The answers of the operating system during one run.

* `GetModuleFileNameW hModule nSize` is the string left in the buffer (the program
  does not test the call for failure, and neither does the embedding);
* `PathRemoveFileSpecW p` is the string left in the buffer after the call;
* `PathFileExistsW p` is the BOOL returned;
* `ShellExecuteExW sei` is the BOOL returned and the value left in `sei.hProcess`;
* `GetLastError` is the DWORD returned on the launch-failure path;
* `GetExitCodeProcess h` is the DWORD stored through the out-pointer (the program
  ignores the BOOL result, so the call is taken to store a value);
* `sizeofSHELLEXECUTEINFOW` is `sizeof(SHELLEXECUTEINFOW)` on the target;
* `currentDirectory` is the working directory of the launcher process. -/
structure OS where
  GetModuleFileNameW : HANDLE → Nat → String
  PathRemoveFileSpecW : String → String
  PathFileExistsW : String → Bool
  ShellExecuteExW : SHELLEXECUTEINFOW → Bool × HANDLE
  GetLastError : Nat
  GetExitCodeProcess : HANDLE → Nat
  sizeofSHELLEXECUTEINFOW : Nat
  currentDirectory : String

/-- The outcome of one run: the value returned by `WinMain` and the calls made, in order. -/
structure Run where
  exitCode : Int
  trace : List Effect
deriving DecidableEq, Repr

/-- The `int` carrying the same 32-bit pattern as a DWORD: what `return exitCode;`
yields and what a `%d` conversion reads. -/
def toInt (v : Nat) : Int :=
  if v % 2 ^ 32 < 2 ^ 31 then ((v % 2 ^ 32 : Nat) : Int)
  else ((v % 2 ^ 32 : Nat) : Int) - 2 ^ 32

/-- Decimal text of an `int`, as produced by the `%d` conversion. -/
def decimal : Int → String
  | Int.ofNat n => Nat.repr n
  | Int.negSucc n => "-" ++ Nat.repr (n + 1)

/-- The call `swprintf(buffer, count, fmt, ...)` on the fully formatted text: the
text is stored when it fits together with its terminator; otherwise the buffer
receives the first `count - 1` characters and the call returns -1. -/
def swprintf (count : Nat) (formatted : String) : String × Int :=
  if formatted.length < count then (formatted, (formatted.length : Int))
  else (String.mk (formatted.data.take (count - 1)), -1)

/-- The text of the missing-file dialog. -/
def notFoundText : String :=
  "Timelapse.exe not found in the same directory. Please reinstall Timelapse."

/-- The caption of both dialogs. -/
def caption : String := "Timelapse Template Editor"

/-- The format string of the launch-failure dialog up to its `%d`. -/
def failedText : String := "Failed to launch Timelapse.exe. Error code: "

/-- The contents of `exePath` after `GetModuleFileNameW`. -/
def selfPath (os : OS) : String := os.GetModuleFileNameW 0 MAX_PATH

/-- The contents of `exePath` after `PathRemoveFileSpecW`. -/
def exeDir (os : OS) : String := os.PathRemoveFileSpecW (selfPath os)

/-- The local `timelapseExe`. -/
def timelapseExe (os : OS) : String := exeDir os ++ "\\Timelapse.exe"

/-- The local `sei` as it is handed to `ShellExecuteExW`. -/
def request (os : OS) (nCmdShow : Int) : SHELLEXECUTEINFOW :=
  { zeroInit with
    cbSize := os.sizeofSHELLEXECUTEINFOW
    fMask := SEE_MASK_NOCLOSEPROCESS
    lpVerb := some "open"
    lpFile := some (timelapseExe os)
    lpParameters := some "-templateeditor"
    lpDirectory := some (exeDir os)
    nShow := nCmdShow }

/-- The entry point `WinMain`. -/
def WinMain (os : OS) (hInstance hPrevInstance : HANDLE) (lpCmdLine : String)
    (nCmdShow : Int) : Run :=
  -- Get the current executable directory
  let exePath := os.GetModuleFileNameW 0 MAX_PATH
  let t := [Effect.GetModuleFileNameW 0 MAX_PATH]
  let t := t ++ [Effect.PathRemoveFileSpecW exePath]
  let exePath := os.PathRemoveFileSpecW exePath
  -- Build path to Timelapse.exe
  let timelapseExe := exePath ++ "\\Timelapse.exe"
  -- Check if Timelapse.exe exists
  let t := t ++ [Effect.PathFileExistsW timelapseExe]
  if !os.PathFileExistsW timelapseExe then
    ⟨1, t ++ [Effect.MessageBoxW 0 notFoundText caption (MB_OK ||| MB_ICONERROR)]⟩
  else
    -- Launch Timelapse.exe with -templateeditor argument
    let sei : SHELLEXECUTEINFOW :=
      { zeroInit with
        cbSize := os.sizeofSHELLEXECUTEINFOW
        fMask := SEE_MASK_NOCLOSEPROCESS
        lpVerb := some "open"
        lpFile := some timelapseExe
        lpParameters := some "-templateeditor"
        lpDirectory := some exePath
        nShow := nCmdShow }
    let t := t ++ [Effect.ShellExecuteExW sei]
    let r := os.ShellExecuteExW sei
    let sei := { sei with hProcess := r.2 }
    if !r.1 then
      let t := t ++ [Effect.GetLastError]
      let error : Nat := os.GetLastError % 2 ^ 32
      let errorMsg := (swprintf 512 (failedText ++ decimal (toInt error))).1
      ⟨1, t ++ [Effect.MessageBoxW 0 errorMsg caption (MB_OK ||| MB_ICONERROR)]⟩
    else
      -- Wait for the process to finish
      if sei.hProcess ≠ 0 then
        let t := t ++ [Effect.WaitForSingleObject sei.hProcess INFINITE]
        let t := t ++ [Effect.GetExitCodeProcess sei.hProcess]
        let exitCode : Nat := os.GetExitCodeProcess sei.hProcess % 2 ^ 32
        let t := t ++ [Effect.CloseHandle sei.hProcess]
        ⟨toInt exitCode, t⟩
      else
        ⟨0, t⟩

/-- Documented behaviour of `PathRemoveFileSpecW` on a drive-letter path, used by
the sample runs: the text from the last backslash on is removed, except that
the backslash of a root such as `C:\` is kept. -/
def removeFileSpec (p : String) : String :=
  let cs := p.data
  let tail := cs.reverse.takeWhile (fun c => c != '\\')
  let keep := cs.length - tail.length
  if keep = 0 then p
  else if keep = 3 ∧ cs.get? 1 = some ':' then String.mk (cs.take 3)
  else String.mk (cs.take (keep - 1))

/-- A sample operating system: the launcher is installed at `self`, the companion
is present or not, and the launch, last-error and exit-code answers are given. -/
def sampleOS (self : String) (present : Bool) (launch : Bool × HANDLE)
    (lastError exit : Nat) : OS :=
  { GetModuleFileNameW := fun _ nSize => String.mk (self.data.take (nSize - 1))
    PathRemoveFileSpecW := removeFileSpec
    PathFileExistsW := fun p => present && p == removeFileSpec self ++ "\\Timelapse.exe"
    ShellExecuteExW := fun _ => launch
    GetLastError := lastError
    GetExitCodeProcess := fun _ => exit
    sizeofSHELLEXECUTEINFOW := 112
    currentDirectory := "D:\\work" }

/-- The installation path used by the sample runs. -/
def installed : String := "C:\\Program Files\\Timelapse\\TimelapseTemplateEditor.exe"

/-- The three calls every run starts with. -/
def probe (os : OS) : List Effect :=
  [Effect.GetModuleFileNameW 0 MAX_PATH, Effect.PathRemoveFileSpecW (selfPath os),
   Effect.PathFileExistsW (timelapseExe os)]

/-- Whether a call shows a dialog. -/
def Effect.isDialog : Effect → Bool
  | Effect.MessageBoxW _ _ _ _ => true
  | _ => false

/-- Whether a call is a process-creation request. -/
def Effect.isLaunch : Effect → Bool
  | Effect.ShellExecuteExW _ => true
  | _ => false

/-- Whether a call operates on a process handle (wait, exit-code query or close). -/
def Effect.isHandleUse : Effect → Bool
  | Effect.WaitForSingleObject _ _ => true
  | Effect.GetExitCodeProcess _ => true
  | Effect.CloseHandle _ => true
  | _ => false

/-- Sample system: companion present, launch succeeds with handle 7, the child ends with
status 0xC0000005. -/
def crashedChildOS : OS := sampleOS installed true (true, 7) 0 3221225477

/-- Sample system: the companion is missing. -/
def orphanOS : OS := sampleOS installed false (true, 7) 0 0

/-- Sample system: companion present, the launch fails and the last-error value is 0. -/
def silentFailureOS : OS := sampleOS installed true (false, 0) 0 0

/-- Sample system: companion present, the launch fails with ERROR_ACCESS_DENIED (5). -/
def deniedOS : OS := sampleOS installed true (false, 0) 5 0

/-- Sample system: companion present, the launch fails with the HRESULT-style value
0x80004005. -/
def hresultOS : OS := sampleOS installed true (false, 0) 2147500037 0

/-- Sample system: companion present, the launch is reported failed with error 5 while
the value 9 is left in hProcess. -/
def strayHandleOS : OS := sampleOS installed true (false, 9) 5 0

/-- Sample system: the launcher sits in the root of drive C. -/
def rootOS : OS := sampleOS "C:\\TimelapseTemplateEditor.exe" true (true, 7) 0 0

/-- The process handles still open when a run ends: every non-null handle left in
`hProcess` by a ShellExecuteExW call of the run for which no later CloseHandle follows. -/
def openHandles (os : OS) : List Effect → List HANDLE
  | [] => []
  | Effect.ShellExecuteExW sei :: rest =>
    if (os.ShellExecuteExW sei).2 ≠ 0 ∧
        Effect.CloseHandle (os.ShellExecuteExW sei).2 ∉ rest then
      (os.ShellExecuteExW sei).2 :: openHandles os rest
    else openHandles os rest
  | _ :: rest => openHandles os rest

/-- A call with the nShow member of a launch request blanked out. -/
def eraseShow : Effect → Effect
  | Effect.ShellExecuteExW sei => Effect.ShellExecuteExW { sei with nShow := 0 }
  | e => e

/-! ## The four paths through `WinMain` -/

theorem WinMain_missing (os : OS) (hInstance hPrevInstance : HANDLE) (lpCmdLine : String)
    (nCmdShow : Int) (hfile : os.PathFileExistsW (timelapseExe os) = false) :
    WinMain os hInstance hPrevInstance lpCmdLine nCmdShow =
      ⟨1, probe os ++ [Effect.MessageBoxW 0 notFoundText caption (MB_OK ||| MB_ICONERROR)]⟩ := by
  unfold timelapseExe exeDir selfPath at hfile
  simp [WinMain, probe, timelapseExe, exeDir, selfPath, hfile]

theorem WinMain_failed (os : OS) (hInstance hPrevInstance : HANDLE) (lpCmdLine : String)
    (nCmdShow : Int) (hfile : os.PathFileExistsW (timelapseExe os) = true)
    (hfail : (os.ShellExecuteExW (request os nCmdShow)).1 = false) :
    WinMain os hInstance hPrevInstance lpCmdLine nCmdShow =
      ⟨1, probe os ++ [Effect.ShellExecuteExW (request os nCmdShow), Effect.GetLastError,
        Effect.MessageBoxW 0
          (swprintf 512 (failedText ++ decimal (toInt (os.GetLastError % 2 ^ 32)))).1
          caption (MB_OK ||| MB_ICONERROR)]⟩ := by
  unfold request timelapseExe exeDir selfPath at hfail
  unfold timelapseExe exeDir selfPath at hfile
  simp [WinMain, probe, request, timelapseExe, exeDir, selfPath, hfile, hfail]

theorem WinMain_nohandle (os : OS) (hInstance hPrevInstance : HANDLE) (lpCmdLine : String)
    (nCmdShow : Int) (hfile : os.PathFileExistsW (timelapseExe os) = true)
    (hok : (os.ShellExecuteExW (request os nCmdShow)).1 = true)
    (hnull : (os.ShellExecuteExW (request os nCmdShow)).2 = 0) :
    WinMain os hInstance hPrevInstance lpCmdLine nCmdShow =
      ⟨0, probe os ++ [Effect.ShellExecuteExW (request os nCmdShow)]⟩ := by
  unfold request timelapseExe exeDir selfPath at hok hnull
  unfold timelapseExe exeDir selfPath at hfile
  simp [WinMain, probe, request, timelapseExe, exeDir, selfPath, hfile, hok, hnull]

theorem WinMain_waited (os : OS) (hInstance hPrevInstance : HANDLE) (lpCmdLine : String)
    (nCmdShow : Int) (hfile : os.PathFileExistsW (timelapseExe os) = true)
    (hok : (os.ShellExecuteExW (request os nCmdShow)).1 = true)
    (hh : (os.ShellExecuteExW (request os nCmdShow)).2 ≠ 0) :
    WinMain os hInstance hPrevInstance lpCmdLine nCmdShow =
      ⟨toInt (os.GetExitCodeProcess (os.ShellExecuteExW (request os nCmdShow)).2 % 2 ^ 32),
        probe os ++ [Effect.ShellExecuteExW (request os nCmdShow),
          Effect.WaitForSingleObject (os.ShellExecuteExW (request os nCmdShow)).2 INFINITE,
          Effect.GetExitCodeProcess (os.ShellExecuteExW (request os nCmdShow)).2,
          Effect.CloseHandle (os.ShellExecuteExW (request os nCmdShow)).2]⟩ := by
  unfold request timelapseExe exeDir selfPath at hok hh
  unfold timelapseExe exeDir selfPath at hfile
  simp [WinMain, probe, request, timelapseExe, exeDir, selfPath, hfile, hok, hh]

theorem WinMain_cases (os : OS) (hInstance hPrevInstance : HANDLE) (lpCmdLine : String)
    (nCmdShow : Int) :
    (os.PathFileExistsW (timelapseExe os) = false ∧
      WinMain os hInstance hPrevInstance lpCmdLine nCmdShow =
        ⟨1, probe os ++ [Effect.MessageBoxW 0 notFoundText caption (MB_OK ||| MB_ICONERROR)]⟩) ∨
    ((os.PathFileExistsW (timelapseExe os) = true ∧
        (os.ShellExecuteExW (request os nCmdShow)).1 = false) ∧
      WinMain os hInstance hPrevInstance lpCmdLine nCmdShow =
        ⟨1, probe os ++ [Effect.ShellExecuteExW (request os nCmdShow), Effect.GetLastError,
          Effect.MessageBoxW 0
            (swprintf 512 (failedText ++ decimal (toInt (os.GetLastError % 2 ^ 32)))).1
            caption (MB_OK ||| MB_ICONERROR)]⟩) ∨
    ((os.PathFileExistsW (timelapseExe os) = true ∧
        (os.ShellExecuteExW (request os nCmdShow)).1 = true ∧
        (os.ShellExecuteExW (request os nCmdShow)).2 = 0) ∧
      WinMain os hInstance hPrevInstance lpCmdLine nCmdShow =
        ⟨0, probe os ++ [Effect.ShellExecuteExW (request os nCmdShow)]⟩) ∨
    ((os.PathFileExistsW (timelapseExe os) = true ∧
        (os.ShellExecuteExW (request os nCmdShow)).1 = true ∧
        (os.ShellExecuteExW (request os nCmdShow)).2 ≠ 0) ∧
      WinMain os hInstance hPrevInstance lpCmdLine nCmdShow =
        ⟨toInt (os.GetExitCodeProcess (os.ShellExecuteExW (request os nCmdShow)).2 % 2 ^ 32),
          probe os ++ [Effect.ShellExecuteExW (request os nCmdShow),
            Effect.WaitForSingleObject (os.ShellExecuteExW (request os nCmdShow)).2 INFINITE,
            Effect.GetExitCodeProcess (os.ShellExecuteExW (request os nCmdShow)).2,
            Effect.CloseHandle (os.ShellExecuteExW (request os nCmdShow)).2]⟩) := by
  cases hfile : os.PathFileExistsW (timelapseExe os) with
  | false => exact Or.inl ⟨rfl, WinMain_missing os _ _ _ _ hfile⟩
  | true =>
    cases hok : (os.ShellExecuteExW (request os nCmdShow)).1 with
    | false => exact Or.inr (Or.inl ⟨⟨rfl, rfl⟩, WinMain_failed os _ _ _ _ hfile hok⟩)
    | true =>
      by_cases hh : (os.ShellExecuteExW (request os nCmdShow)).2 = 0
      · exact Or.inr (Or.inr (Or.inl ⟨⟨rfl, rfl, hh⟩, WinMain_nohandle os _ _ _ _ hfile hok hh⟩))
      · exact Or.inr (Or.inr (Or.inr ⟨⟨rfl, rfl, hh⟩, WinMain_waited os _ _ _ _ hfile hok hh⟩))

/-! ## Arithmetic of the DWORD to int conversion and of the formatted message -/

theorem toInt_of_lt (v : Nat) (h : v < 2 ^ 31) : toInt v = (v : Int) := by
  have h1 : v % 2 ^ 32 = v := Nat.mod_eq_of_lt (by omega)
  unfold toInt
  rw [h1, if_pos h]

theorem toInt_of_ge (v : Nat) (h : 2 ^ 31 ≤ v) (h2 : v < 2 ^ 32) :
    toInt v = (v : Int) - 2 ^ 32 := by
  have h1 : v % 2 ^ 32 = v := Nat.mod_eq_of_lt h2
  have h3 : ¬ v < 2 ^ 31 := by omega
  unfold toInt
  rw [h1, if_neg h3]

theorem toInt_emod (v : Nat) (h : v < 2 ^ 32) : toInt v % 2 ^ 32 = (v : Int) := by
  by_cases h1 : v < 2 ^ 31
  · rw [toInt_of_lt v h1]; omega
  · rw [toInt_of_ge v (by omega) h]; omega

theorem toInt_range (v : Nat) : -2 ^ 31 ≤ toInt v ∧ toInt v < 2 ^ 31 := by
  have hm : v % 2 ^ 32 < 2 ^ 32 := Nat.mod_lt _ (by norm_num)
  unfold toInt
  generalize v % 2 ^ 32 = w at hm
  split_ifs with h <;> constructor <;> omega

theorem decimal_neg (n : Nat) (h : 0 < n) : decimal (-(n : Int)) = "-" ++ Nat.repr n := by
  cases n with
  | zero => omega
  | succ m => rfl

theorem decimal_length_le (v : Nat) : (decimal (toInt v)).length ≤ 11 := by
  obtain ⟨hlo, hhi⟩ := toInt_range v
  cases hv : toInt v with
  | ofNat n =>
    rw [hv] at hhi
    have hn : n < 10 ^ 10 := by
      have : (n : Int) < 2 ^ 31 := hhi
      omega
    have := Nat.repr_length n 10 (by norm_num) hn
    simp only [decimal]
    omega
  | negSucc m =>
    rw [hv, Int.negSucc_eq] at hlo
    have hm : m + 1 < 10 ^ 10 := by omega
    have := Nat.repr_length (m + 1) 10 (by norm_num) hm
    simp only [decimal, String.length_append]
    have h1 : "-".length = 1 := by decide
    omega

theorem failedText_length : failedText.length = 44 := by decide

theorem failed_message_length_le (v : Nat) :
    (failedText ++ decimal (toInt v)).length ≤ 55 := by
  have := decimal_length_le v
  rw [String.length_append, failedText_length]
  omega

theorem swprintf_failed_message (v : Nat) :
    swprintf 512 (failedText ++ decimal (toInt v)) =
      (failedText ++ decimal (toInt v), ((failedText ++ decimal (toInt v)).length : Int)) := by
  have := failed_message_length_le v
  have h : (failedText ++ decimal (toInt v)).length < 512 := by omega
  unfold swprintf
  rw [if_pos h]

/-! ## Exit-code forwarding -/

/-- C1: when Timelapse.exe exists in the launcher directory, ShellExecuteExW succeeds
and leaves a non-null process handle, then for every 32-bit exit code `c` stored by
GetExitCodeProcess the value returned by WinMain is the int with the same 32-bit
pattern: it is congruent to `c` modulo 2^32, equals `c` below 2^31 and `c - 2^32`
from 2^31 on. -/
theorem exit_code_forwarded (os : OS) (hInstance hPrevInstance : HANDLE)
    (lpCmdLine : String) (nCmdShow : Int) (c : Nat)
    (hfile : os.PathFileExistsW (timelapseExe os) = true)
    (hok : (os.ShellExecuteExW (request os nCmdShow)).1 = true)
    (hh : (os.ShellExecuteExW (request os nCmdShow)).2 ≠ 0)
    (hc : c < 2 ^ 32)
    (hexit : os.GetExitCodeProcess (os.ShellExecuteExW (request os nCmdShow)).2 = c) :
    (WinMain os hInstance hPrevInstance lpCmdLine nCmdShow).exitCode = toInt c ∧
    (WinMain os hInstance hPrevInstance lpCmdLine nCmdShow).exitCode % 2 ^ 32 = (c : Int) ∧
    (c < 2 ^ 31 →
      (WinMain os hInstance hPrevInstance lpCmdLine nCmdShow).exitCode = (c : Int)) ∧
    (2 ^ 31 ≤ c →
      (WinMain os hInstance hPrevInstance lpCmdLine nCmdShow).exitCode = (c : Int) - 2 ^ 32) ∧
    -2 ^ 31 ≤ (WinMain os hInstance hPrevInstance lpCmdLine nCmdShow).exitCode ∧
    (WinMain os hInstance hPrevInstance lpCmdLine nCmdShow).exitCode < 2 ^ 31 := by
  have hrun := WinMain_waited os hInstance hPrevInstance lpCmdLine nCmdShow hfile hok hh
  have hmod : c % 2 ^ 32 = c := Nat.mod_eq_of_lt hc
  have hcode : (WinMain os hInstance hPrevInstance lpCmdLine nCmdShow).exitCode = toInt c := by
    rw [hrun, hexit, hmod]
  rw [hcode]
  exact ⟨rfl, toInt_emod c hc, fun h => toInt_of_lt c h, fun h => toInt_of_ge c h hc,
    (toInt_range c).1, (toInt_range c).2⟩

/-- Sample run for C1: a child that ends with the access-violation status 0xC0000005 makes
the launcher return -1073741819, the int with that bit pattern. -/
theorem exit_code_forwarded_witness :
    (crashedChildOS.PathFileExistsW (timelapseExe crashedChildOS) = true ∧
     (crashedChildOS.ShellExecuteExW (request crashedChildOS 1)).1 = true ∧
     (crashedChildOS.ShellExecuteExW (request crashedChildOS 1)).2 ≠ 0 ∧
     crashedChildOS.GetExitCodeProcess (crashedChildOS.ShellExecuteExW
       (request crashedChildOS 1)).2 = 3221225477) ∧
    (WinMain crashedChildOS 1 0 "" 1).exitCode = -1073741819 ∧
    (WinMain crashedChildOS 1 0 "" 1).exitCode % 2 ^ 32 = 3221225477 :=
  have h := exit_code_forwarded crashedChildOS 1 0 "" 1
    3221225477 (by decide) (by decide) (by decide) (by decide) (by decide)
  ⟨by decide, h.1.trans (by decide), h.2.1⟩

/-! ## The missing-companion path -/

/-- C2: when PathFileExistsW reports the target path absent, WinMain returns 1, the calls
made are exactly the three probing calls followed by a single message box with the
not-found text, and no ShellExecuteExW, wait, GetExitCodeProcess or CloseHandle is made. -/
theorem missing_companion (os : OS) (hInstance hPrevInstance : HANDLE)
    (lpCmdLine : String) (nCmdShow : Int)
    (hfile : os.PathFileExistsW (timelapseExe os) = false) :
    (WinMain os hInstance hPrevInstance lpCmdLine nCmdShow).exitCode = 1 ∧
    (WinMain os hInstance hPrevInstance lpCmdLine nCmdShow).trace =
      [Effect.GetModuleFileNameW 0 MAX_PATH,
       Effect.PathRemoveFileSpecW (os.GetModuleFileNameW 0 MAX_PATH),
       Effect.PathFileExistsW (timelapseExe os),
       Effect.MessageBoxW 0
         "Timelapse.exe not found in the same directory. Please reinstall Timelapse."
         "Timelapse Template Editor" (MB_OK ||| MB_ICONERROR)] ∧
    (WinMain os hInstance hPrevInstance lpCmdLine nCmdShow).trace.filter Effect.isDialog =
      [Effect.MessageBoxW 0
         "Timelapse.exe not found in the same directory. Please reinstall Timelapse."
         "Timelapse Template Editor" (MB_OK ||| MB_ICONERROR)] ∧
    (WinMain os hInstance hPrevInstance lpCmdLine nCmdShow).trace.filter Effect.isLaunch = [] ∧
    (WinMain os hInstance hPrevInstance lpCmdLine nCmdShow).trace.filter Effect.isHandleUse
      = [] := by
  rw [WinMain_missing os hInstance hPrevInstance lpCmdLine nCmdShow hfile]
  refine ⟨rfl, rfl, ?_, ?_, ?_⟩ <;> rfl

/-- Sample run for C2: the launcher installed without its companion. -/
theorem missing_companion_witness :
    orphanOS.PathFileExistsW (timelapseExe orphanOS) = false ∧
    (WinMain orphanOS 1 0 "" 1).exitCode = 1 ∧
    ((WinMain orphanOS 1 0 "" 1).trace.filter Effect.isDialog).length = 1 ∧
    (WinMain orphanOS 1 0 "" 1).trace.filter Effect.isLaunch = [] :=
  have h := missing_companion orphanOS 1 0 "" 1 (by decide)
  ⟨by decide, h.1, by rw [h.2.2.1]; rfl, h.2.2.2.1⟩

/-! ## The target path and the launch request -/

/-- C3: the path that is probed with PathFileExistsW and later passed as lpFile is
PathRemoveFileSpecW of the self-path followed by one backslash and Timelapse.exe; the
existence check is always made on it, every launch request carries it, and replacing the
current working directory of the launcher changes neither the path nor the run. -/
theorem target_path_from_own_directory (os : OS) (hInstance hPrevInstance : HANDLE)
    (lpCmdLine : String) (nCmdShow : Int) (cwd : String) :
    timelapseExe os =
      os.PathRemoveFileSpecW (os.GetModuleFileNameW 0 MAX_PATH) ++ "\\" ++ "Timelapse.exe" ∧
    Effect.PathFileExistsW (timelapseExe os) ∈
      (WinMain os hInstance hPrevInstance lpCmdLine nCmdShow).trace ∧
    (∀ p, Effect.PathFileExistsW p ∈
        (WinMain os hInstance hPrevInstance lpCmdLine nCmdShow).trace → p = timelapseExe os) ∧
    (∀ sei, Effect.ShellExecuteExW sei ∈
        (WinMain os hInstance hPrevInstance lpCmdLine nCmdShow).trace →
      sei.lpFile = some (timelapseExe os)) ∧
    (os.PathFileExistsW (timelapseExe os) = true →
      Effect.ShellExecuteExW (request os nCmdShow) ∈
        (WinMain os hInstance hPrevInstance lpCmdLine nCmdShow).trace) ∧
    timelapseExe { os with currentDirectory := cwd } = timelapseExe os ∧
    WinMain { os with currentDirectory := cwd } hInstance hPrevInstance lpCmdLine nCmdShow =
      WinMain os hInstance hPrevInstance lpCmdLine nCmdShow := by
  have hpath : timelapseExe os =
      os.PathRemoveFileSpecW (os.GetModuleFileNameW 0 MAX_PATH) ++ "\\" ++ "Timelapse.exe" := by
    unfold timelapseExe exeDir selfPath
    rw [String.append_assoc]
    rfl
  refine ⟨hpath, ?_, ?_, ?_, ?_, rfl, rfl⟩
  · rcases WinMain_cases os hInstance hPrevInstance lpCmdLine nCmdShow with
      h | h | h | h <;> rw [h.2] <;> simp [probe]
  · intro p
    rcases WinMain_cases os hInstance hPrevInstance lpCmdLine nCmdShow with
      h | h | h | h <;> rw [h.2] <;> simp [probe]
  · intro sei
    rcases WinMain_cases os hInstance hPrevInstance lpCmdLine nCmdShow with
      h | h | h | h <;> rw [h.2] <;> simp [probe] <;> intro hs <;> rw [hs] <;> rfl
  · intro hfile
    rcases WinMain_cases os hInstance hPrevInstance lpCmdLine nCmdShow with
      h | h | h | h <;> rw [h.2] <;> simp [probe]
    rw [hfile] at h
    exact absurd h.1 (by decide)

/-- C4: in a run that reaches process creation there is exactly one ShellExecuteExW
request; its lpParameters is -templateeditor, its lpDirectory is the launcher directory
obtained by PathRemoveFileSpecW from the self-path, its lpFile is the target path, its
fMask is SEE_MASK_NOCLOSEPROCESS, its verb is open and its nShow is nCmdShow; the request
is the same whatever the current working directory of the launcher. -/
theorem launch_request_fixed (os : OS) (hInstance hPrevInstance : HANDLE)
    (lpCmdLine : String) (nCmdShow : Int)
    (hfile : os.PathFileExistsW (timelapseExe os) = true) :
    ∃ sei : SHELLEXECUTEINFOW,
      (WinMain os hInstance hPrevInstance lpCmdLine nCmdShow).trace.filter Effect.isLaunch =
        [Effect.ShellExecuteExW sei] ∧
      sei.lpParameters = some "-templateeditor" ∧
      sei.lpDirectory = some (os.PathRemoveFileSpecW (os.GetModuleFileNameW 0 MAX_PATH)) ∧
      sei.lpFile =
        some (os.PathRemoveFileSpecW (os.GetModuleFileNameW 0 MAX_PATH) ++ "\\Timelapse.exe") ∧
      sei.fMask = SEE_MASK_NOCLOSEPROCESS ∧
      sei.fMask &&& 0x40 = 0x40 ∧
      sei.lpVerb = some "open" ∧
      sei.nShow = nCmdShow ∧
      sei.cbSize = os.sizeofSHELLEXECUTEINFOW ∧
      ∀ cwd : String, request { os with currentDirectory := cwd } nCmdShow = sei := by
  have hmask : (request os nCmdShow).fMask &&& 0x40 = 0x40 := by
    show SEE_MASK_NOCLOSEPROCESS &&& 0x40 = 0x40
    decide
  refine ⟨request os nCmdShow, ?_, rfl, rfl, rfl, rfl, hmask, rfl, rfl, rfl, fun _ => rfl⟩
  rcases WinMain_cases os hInstance hPrevInstance lpCmdLine nCmdShow with h | h | h | h
  · rw [hfile] at h
    exact absurd h.1 (by decide)
  all_goals rw [h.2]; rfl

/-- Sample run for C4: launched from D:\work, the child still receives the install
directory as working directory and the fixed flag. -/
theorem launch_request_fixed_witness :
    crashedChildOS.PathFileExistsW (timelapseExe crashedChildOS) = true ∧
    crashedChildOS.currentDirectory = "D:\\work" ∧
    ∃ sei : SHELLEXECUTEINFOW,
      (WinMain crashedChildOS 1 0 "ignored.tdb" 5).trace.filter Effect.isLaunch =
        [Effect.ShellExecuteExW sei] ∧
      sei.lpParameters = some "-templateeditor" ∧
      sei.lpDirectory = some "C:\\Program Files\\Timelapse" ∧
      sei.lpFile = some "C:\\Program Files\\Timelapse\\Timelapse.exe" ∧
      sei.fMask = 0x40 :=
  have h := launch_request_fixed crashedChildOS 1 0 "ignored.tdb" 5 (by decide)
  ⟨by decide, by decide,
    h.elim fun sei hs => ⟨sei, hs.1, hs.2.1, hs.2.2.1.trans (by decide),
      hs.2.2.2.1.trans (by decide), hs.2.2.2.2.1⟩⟩

/-! ## The launch-failure path -/

/-- C5, as stated, fails on two inputs.  With the companion present, ShellExecuteExW
failing and GetLastError answering 0, the single dialog reads
"Failed to launch Timelapse.exe. Error code: 0": the displayed value is zero.  With
GetLastError answering 0x80004005 the dialog reads "... Error code: -2147467259", which is
not the decimal text of the value 2147500037 that GetLastError returned. -/
theorem launch_failure_text_differs :
    (silentFailureOS.PathFileExistsW (timelapseExe silentFailureOS) = true ∧
      (silentFailureOS.ShellExecuteExW (request silentFailureOS 1)).1 = false ∧
      (WinMain silentFailureOS 1 0 "" 1).exitCode = 1 ∧
      (WinMain silentFailureOS 1 0 "" 1).trace.filter Effect.isDialog =
        [Effect.MessageBoxW 0 "Failed to launch Timelapse.exe. Error code: 0"
          "Timelapse Template Editor" (MB_OK ||| MB_ICONERROR)] ∧
      ¬ (silentFailureOS.GetLastError % 2 ^ 32 ≠ 0)) ∧
    (hresultOS.PathFileExistsW (timelapseExe hresultOS) = true ∧
      (hresultOS.ShellExecuteExW (request hresultOS 1)).1 = false ∧
      hresultOS.GetLastError % 2 ^ 32 = 2147500037 ∧
      (WinMain hresultOS 1 0 "" 1).trace.filter Effect.isDialog =
        [Effect.MessageBoxW 0 "Failed to launch Timelapse.exe. Error code: -2147467259"
          "Timelapse Template Editor" (MB_OK ||| MB_ICONERROR)] ∧
      (WinMain hresultOS 1 0 "" 1).trace.filter Effect.isDialog ≠
        [Effect.MessageBoxW 0
          ("Failed to launch Timelapse.exe. Error code: " ++
            Nat.repr (hresultOS.GetLastError % 2 ^ 32))
          "Timelapse Template Editor" (MB_OK ||| MB_ICONERROR)]) := by
  decide

/-- C5, amended: when the target exists and ShellExecuteExW fails, WinMain returns 1,
makes the single launch request, shows exactly one message box whose text is
"Failed to launch Timelapse.exe. Error code: " followed by the decimal text of the
GetLastError value read as a 32-bit signed int, and performs no wait,
GetExitCodeProcess or CloseHandle.  The number shown is zero exactly when the
GetLastError value is zero, and is the plain decimal of that value below 2^31. -/
theorem launch_failure_reported (os : OS) (hInstance hPrevInstance : HANDLE)
    (lpCmdLine : String) (nCmdShow : Int)
    (hfile : os.PathFileExistsW (timelapseExe os) = true)
    (hfail : (os.ShellExecuteExW (request os nCmdShow)).1 = false) :
    (WinMain os hInstance hPrevInstance lpCmdLine nCmdShow).exitCode = 1 ∧
    (WinMain os hInstance hPrevInstance lpCmdLine nCmdShow).trace.filter Effect.isDialog =
      [Effect.MessageBoxW 0
        ("Failed to launch Timelapse.exe. Error code: " ++
          decimal (toInt (os.GetLastError % 2 ^ 32)))
        "Timelapse Template Editor" (MB_OK ||| MB_ICONERROR)] ∧
    (WinMain os hInstance hPrevInstance lpCmdLine nCmdShow).trace.filter Effect.isLaunch =
      [Effect.ShellExecuteExW (request os nCmdShow)] ∧
    (WinMain os hInstance hPrevInstance lpCmdLine nCmdShow).trace.filter Effect.isHandleUse
      = [] ∧
    (toInt (os.GetLastError % 2 ^ 32) = 0 ↔ os.GetLastError % 2 ^ 32 = 0) ∧
    (os.GetLastError % 2 ^ 32 < 2 ^ 31 →
      decimal (toInt (os.GetLastError % 2 ^ 32)) = Nat.repr (os.GetLastError % 2 ^ 32)) := by
  rw [WinMain_failed os hInstance hPrevInstance lpCmdLine nCmdShow hfile hfail,
    swprintf_failed_message]
  have hlt : os.GetLastError % 2 ^ 32 < 2 ^ 32 := Nat.mod_lt _ (by norm_num)
  refine ⟨rfl, rfl, rfl, rfl, ?_, ?_⟩
  · by_cases h : os.GetLastError % 2 ^ 32 < 2 ^ 31
    · rw [toInt_of_lt _ h]; omega
    · rw [toInt_of_ge _ (by omega) hlt]; omega
  · intro h
    rw [toInt_of_lt _ h]
    rfl

/-- Sample run for C5: an access-denied launch shows error code 5 and returns 1. -/
theorem launch_failure_reported_witness :
    deniedOS.PathFileExistsW (timelapseExe deniedOS) = true ∧
    (deniedOS.ShellExecuteExW (request deniedOS 1)).1 = false ∧
    (WinMain deniedOS 1 0 "" 1).exitCode = 1 ∧
    (WinMain deniedOS 1 0 "" 1).trace.filter Effect.isDialog =
      [Effect.MessageBoxW 0 "Failed to launch Timelapse.exe. Error code: 5"
        "Timelapse Template Editor" 0x10] :=
  have h := launch_failure_reported deniedOS 1 0 "" 1 (by decide) (by decide)
  ⟨by decide, by decide, h.1, h.2.1.trans (by decide)⟩

/-! ## Exit-code table -/

/-- C6: the exit code is 1 with exactly one dialog when the companion is missing or
ShellExecuteExW fails; 0 with no dialog and no handle operation when ShellExecuteExW
succeeds with a null process handle; otherwise the int carrying the child exit code, with
no dialog.  A dialog is shown exactly on the two failure conditions, never more than one per
run, and every dialog has caption "Timelapse Template Editor" and style
MB_OK | MB_ICONERROR. -/
theorem exit_code_classification (os : OS) (hInstance hPrevInstance : HANDLE)
    (lpCmdLine : String) (nCmdShow : Int) :
    ((os.PathFileExistsW (timelapseExe os) = false ∨
        (os.PathFileExistsW (timelapseExe os) = true ∧
          (os.ShellExecuteExW (request os nCmdShow)).1 = false)) →
      (WinMain os hInstance hPrevInstance lpCmdLine nCmdShow).exitCode = 1 ∧
      ((WinMain os hInstance hPrevInstance lpCmdLine nCmdShow).trace.filter
        Effect.isDialog).length = 1) ∧
    ((os.PathFileExistsW (timelapseExe os) = true ∧
        (os.ShellExecuteExW (request os nCmdShow)).1 = true ∧
        (os.ShellExecuteExW (request os nCmdShow)).2 = 0) →
      (WinMain os hInstance hPrevInstance lpCmdLine nCmdShow).exitCode = 0 ∧
      (WinMain os hInstance hPrevInstance lpCmdLine nCmdShow).trace.filter Effect.isDialog
        = [] ∧
      (WinMain os hInstance hPrevInstance lpCmdLine nCmdShow).trace.filter Effect.isHandleUse
        = []) ∧
    ((os.PathFileExistsW (timelapseExe os) = true ∧
        (os.ShellExecuteExW (request os nCmdShow)).1 = true ∧
        (os.ShellExecuteExW (request os nCmdShow)).2 ≠ 0) →
      (WinMain os hInstance hPrevInstance lpCmdLine nCmdShow).exitCode =
        toInt (os.GetExitCodeProcess (os.ShellExecuteExW (request os nCmdShow)).2 % 2 ^ 32) ∧
      (WinMain os hInstance hPrevInstance lpCmdLine nCmdShow).trace.filter Effect.isDialog
        = []) ∧
    ((WinMain os hInstance hPrevInstance lpCmdLine nCmdShow).trace.filter Effect.isDialog ≠ []
      ↔ (os.PathFileExistsW (timelapseExe os) = false ∨
          (os.PathFileExistsW (timelapseExe os) = true ∧
            (os.ShellExecuteExW (request os nCmdShow)).1 = false))) ∧
    ((WinMain os hInstance hPrevInstance lpCmdLine nCmdShow).trace.filter
      Effect.isDialog).length ≤ 1 ∧
    (∀ (hWnd : HANDLE) (lpText lpCaption : String) (uType : Nat),
      Effect.MessageBoxW hWnd lpText lpCaption uType ∈
        (WinMain os hInstance hPrevInstance lpCmdLine nCmdShow).trace →
      lpCaption = "Timelapse Template Editor" ∧ uType = MB_OK ||| MB_ICONERROR ∧
        uType = 0x10) := by
  rcases WinMain_cases os hInstance hPrevInstance lpCmdLine nCmdShow with h | h | h | h
  · rw [h.2]
    simp [h.1, probe, Effect.isDialog, Effect.isHandleUse, caption, MB_OK, MB_ICONERROR]
  · rw [h.2]
    simp [h.1, probe, Effect.isDialog, Effect.isHandleUse, caption, MB_OK, MB_ICONERROR]
  · rw [h.2]
    simp [h.1, probe, Effect.isDialog, Effect.isHandleUse, caption, MB_OK, MB_ICONERROR]
  · rw [h.2]
    simp [h.1, probe, Effect.isDialog, Effect.isHandleUse, caption, MB_OK, MB_ICONERROR]

/-! ## Lifetime of the child process handle -/

/-- C7, as stated, fails on the failure run: with the companion present and
ShellExecuteExW reporting failure while leaving the non-null value 9 in hProcess, WinMain
returns 1 after its dialog without any wait, query or close; handle 9 is closed zero times
and is still open when the run ends. -/
theorem failed_launch_handle_not_closed :
    strayHandleOS.PathFileExistsW (timelapseExe strayHandleOS) = true ∧
    strayHandleOS.ShellExecuteExW (request strayHandleOS 1) = (false, 9) ∧
    (WinMain strayHandleOS 1 0 "" 1).exitCode = 1 ∧
    (WinMain strayHandleOS 1 0 "" 1).trace.filter Effect.isHandleUse = [] ∧
    (WinMain strayHandleOS 1 0 "" 1).trace.count (Effect.CloseHandle 9) = 0 ∧
    openHandles strayHandleOS (WinMain strayHandleOS 1 0 "" 1).trace = [9] := by
  decide

/-- C7, amended: every non-null process handle handed back by a ShellExecuteExW call that
reports success is waited on with INFINITE, then queried with GetExitCodeProcess, then
closed, in that order; the close is the last call of the run and the only close, so the
handle is not used afterwards.  On the missing-file, failed-launch and null-handle runs no
handle operation is made at all: the launcher never inspects or closes hProcess after a
reported failure.  The handles open when a run ends are exactly: the value left in hProcess
by a failed launch if that value is non-null, and none otherwise. -/
theorem process_handle_released_on_success (os : OS) (hInstance hPrevInstance : HANDLE)
    (lpCmdLine : String) (nCmdShow : Int) :
    (∀ h : HANDLE, h ≠ 0 → os.PathFileExistsW (timelapseExe os) = true →
      (os.ShellExecuteExW (request os nCmdShow)).1 = true →
      (os.ShellExecuteExW (request os nCmdShow)).2 = h →
      (WinMain os hInstance hPrevInstance lpCmdLine nCmdShow).trace =
        probe os ++ [Effect.ShellExecuteExW (request os nCmdShow),
          Effect.WaitForSingleObject h INFINITE, Effect.GetExitCodeProcess h,
          Effect.CloseHandle h] ∧
      (WinMain os hInstance hPrevInstance lpCmdLine nCmdShow).trace.filter
        Effect.isHandleUse =
        [Effect.WaitForSingleObject h 0xFFFFFFFF, Effect.GetExitCodeProcess h,
          Effect.CloseHandle h] ∧
      (WinMain os hInstance hPrevInstance lpCmdLine nCmdShow).trace.count
        (Effect.CloseHandle h) = 1 ∧
      (WinMain os hInstance hPrevInstance lpCmdLine nCmdShow).trace.getLast? =
        some (Effect.CloseHandle h)) ∧
    ((os.PathFileExistsW (timelapseExe os) = false ∨
        (os.ShellExecuteExW (request os nCmdShow)).1 = false ∨
        (os.ShellExecuteExW (request os nCmdShow)).2 = 0) →
      (WinMain os hInstance hPrevInstance lpCmdLine nCmdShow).trace.filter
        Effect.isHandleUse = []) ∧
    openHandles os (WinMain os hInstance hPrevInstance lpCmdLine nCmdShow).trace =
      (if os.PathFileExistsW (timelapseExe os) = true ∧
          (os.ShellExecuteExW (request os nCmdShow)).1 = false ∧
          (os.ShellExecuteExW (request os nCmdShow)).2 ≠ 0
        then [(os.ShellExecuteExW (request os nCmdShow)).2] else []) := by
  rcases WinMain_cases os hInstance hPrevInstance lpCmdLine nCmdShow with h | h | h | h
  · rw [h.2]
    refine ⟨?_, fun _ => rfl, ?_⟩
    · intro _ _ hfile
      rw [hfile] at h
      exact absurd h.1 (by decide)
    · simp [probe, openHandles, h.1]
  · rw [h.2]
    refine ⟨?_, fun _ => rfl, ?_⟩
    · intro _ _ _ hok
      rw [h.1.2] at hok
      exact absurd hok (by decide)
    · by_cases hz : (os.ShellExecuteExW (request os nCmdShow)).2 = 0
      · simp [probe, openHandles, h.1.1, h.1.2, hz]
      · simp [probe, openHandles, h.1.1, h.1.2, hz]
  · rw [h.2]
    refine ⟨?_, fun _ => rfl, ?_⟩
    · intro k hk _ _ hkh
      exact absurd (hkh.symm.trans h.1.2.2) hk
    · simp [probe, openHandles, h.1.2.1, h.1.2.2]
  · rw [h.2]
    refine ⟨?_, ?_, ?_⟩
    · intro k hk _ _ hkh
      subst hkh
      refine ⟨rfl, rfl, ?_, ?_⟩
      · simp [probe, List.count_cons]
      · simp [probe]
    · intro hno
      rcases hno with hno | hno | hno
      · rw [h.1.1] at hno
        exact absurd hno (by decide)
      · rw [h.1.2.1] at hno
        exact absurd hno (by decide)
      · exact absurd hno h.1.2.2
    · simp [probe, openHandles, h.1.2.1]

/-! ## Startup arguments -/

/-- C8: with the same operating-system answers, two runs that differ in hInstance,
hPrevInstance and lpCmdLine return the same exit code and make the same calls with the
same arguments; every launch request carries lpParameters -templateeditor, never the
launcher command line; and nCmdShow reaches only the nShow member of the launch request:
when the launch answers agree, runs with different nCmdShow have the same exit code and the
same calls once nShow is blanked out. -/
theorem startup_arguments_ignored (os : OS) (hInstance hPrevInstance : HANDLE)
    (lpCmdLine : String) (hInstance2 hPrevInstance2 : HANDLE) (lpCmdLine2 : String)
    (nCmdShow nCmdShow2 : Int) :
    WinMain os hInstance hPrevInstance lpCmdLine nCmdShow =
      WinMain os hInstance2 hPrevInstance2 lpCmdLine2 nCmdShow ∧
    (∀ sei, Effect.ShellExecuteExW sei ∈
        (WinMain os hInstance hPrevInstance lpCmdLine nCmdShow).trace →
      sei.lpParameters = some "-templateeditor" ∧ sei.nShow = nCmdShow ∧
        sei = { request os 0 with nShow := nCmdShow }) ∧
    (os.ShellExecuteExW (request os nCmdShow) = os.ShellExecuteExW (request os nCmdShow2) →
      (WinMain os hInstance hPrevInstance lpCmdLine nCmdShow).exitCode =
        (WinMain os hInstance2 hPrevInstance2 lpCmdLine2 nCmdShow2).exitCode ∧
      (WinMain os hInstance hPrevInstance lpCmdLine nCmdShow).trace.map eraseShow =
        (WinMain os hInstance2 hPrevInstance2 lpCmdLine2 nCmdShow2).trace.map eraseShow) := by
  refine ⟨rfl, ?_, ?_⟩
  · intro sei
    rcases WinMain_cases os hInstance hPrevInstance lpCmdLine nCmdShow with
      h | h | h | h <;> rw [h.2] <;> simp [probe] <;> intro hs <;> rw [hs] <;>
      exact ⟨rfl, rfl, rfl⟩
  · intro heq
    have herase : eraseShow (Effect.ShellExecuteExW (request os nCmdShow)) =
        eraseShow (Effect.ShellExecuteExW (request os nCmdShow2)) := rfl
    rcases WinMain_cases os hInstance hPrevInstance lpCmdLine nCmdShow with h | h | h | h <;>
      rcases WinMain_cases os hInstance2 hPrevInstance2 lpCmdLine2 nCmdShow2 with
        k | k | k | k <;>
      rw [h.2, k.2] <;>
      have hc := h.1 <;> have kc := k.1 <;>
      clear h k <;>
      (try rw [heq] at hc) <;>
      simp_all [probe, herase, eraseShow]

/-! ## The formatted failure message -/

/-- C9: on the launch-failure path, for every 32-bit value `e` returned by GetLastError,
the text "Failed to launch Timelapse.exe. Error code: " followed by the `%d` rendering of
`e` has at most 511 characters, swprintf with count 512 stores it whole and returns its
length, and the dialog shows that whole text; from 2^31 on the number shown is the
negative `e - 2^32`, below 2^31 it is `e` itself. -/
theorem failure_message_fits (os : OS) (hInstance hPrevInstance : HANDLE)
    (lpCmdLine : String) (nCmdShow : Int) (e : Nat)
    (hfile : os.PathFileExistsW (timelapseExe os) = true)
    (hfail : (os.ShellExecuteExW (request os nCmdShow)).1 = false)
    (he : e < 2 ^ 32) (hlast : os.GetLastError = e) :
    ("Failed to launch Timelapse.exe. Error code: " ++ decimal (toInt e)).length ≤ 511 ∧
    swprintf 512 ("Failed to launch Timelapse.exe. Error code: " ++ decimal (toInt e)) =
      ("Failed to launch Timelapse.exe. Error code: " ++ decimal (toInt e),
        (("Failed to launch Timelapse.exe. Error code: " ++ decimal (toInt e)).length : Int)) ∧
    (WinMain os hInstance hPrevInstance lpCmdLine nCmdShow).trace.filter Effect.isDialog =
      [Effect.MessageBoxW 0
        ("Failed to launch Timelapse.exe. Error code: " ++ decimal (toInt e))
        "Timelapse Template Editor" (MB_OK ||| MB_ICONERROR)] ∧
    (2 ^ 31 ≤ e → toInt e = (e : Int) - 2 ^ 32 ∧ toInt e < 0 ∧
      decimal (toInt e) = "-" ++ Nat.repr (2 ^ 32 - e)) ∧
    (e < 2 ^ 31 → toInt e = (e : Int) ∧ decimal (toInt e) = Nat.repr e) := by
  have hmod : os.GetLastError % 2 ^ 32 = e := by rw [hlast]; exact Nat.mod_eq_of_lt he
  have hlen := failed_message_length_le e
  refine ⟨?_, swprintf_failed_message e, ?_, ?_, ?_⟩
  · exact le_trans hlen (by norm_num)
  · rw [WinMain_failed os hInstance hPrevInstance lpCmdLine nCmdShow hfile hfail, hmod,
      swprintf_failed_message]
    rfl
  · intro h
    have hi := toInt_of_ge e h he
    refine ⟨hi, by rw [hi]; omega, ?_⟩
    have hneg : toInt e = -((2 ^ 32 - e : Nat) : Int) := by rw [hi]; omega
    rw [hneg]
    exact decimal_neg (2 ^ 32 - e) (by omega)
  · intro h
    have hi := toInt_of_lt e h
    refine ⟨hi, ?_⟩
    rw [hi]
    rfl

/-- Sample run for C9: the value 0x80004005 is shown as -2147467259, in a message of 55
characters. -/
theorem failure_message_fits_witness :
    hresultOS.PathFileExistsW (timelapseExe hresultOS) = true ∧
    (hresultOS.ShellExecuteExW (request hresultOS 1)).1 = false ∧
    hresultOS.GetLastError = 2147500037 ∧
    (WinMain hresultOS 1 0 "" 1).trace.filter Effect.isDialog =
      [Effect.MessageBoxW 0 "Failed to launch Timelapse.exe. Error code: -2147467259"
        "Timelapse Template Editor" 0x10] ∧
    ("Failed to launch Timelapse.exe. Error code: " ++ decimal (toInt 2147500037)).length
      = 55 :=
  have h := failure_message_fits hresultOS 1 0 "" 1 2147500037 (by decide) (by decide)
    (by decide) (by decide)
  ⟨by decide, by decide, by decide, h.2.2.1.trans (by decide), by decide⟩

/-! ## Shape of the target path -/

/-- C10: when the launcher directory `d` left in the buffer by GetModuleFileNameW (count
MAX_PATH) and PathRemoveFileSpecW has at most 259 characters, the target path has exactly
`len d + 14` characters, nothing being cut at MAX_PATH, and ends in `\Timelapse.exe`;
when `d` itself ends in a backslash the target ends in a doubled separator, and for
`d = C:\` the target is `C:\\Timelapse.exe`; this is the path the run probes. -/
theorem target_path_shape (os : OS) (hInstance hPrevInstance : HANDLE)
    (lpCmdLine : String) (nCmdShow : Int)
    (hd : (os.PathRemoveFileSpecW (os.GetModuleFileNameW 0 MAX_PATH)).length ≤ 259) :
    (timelapseExe os).length =
      (os.PathRemoveFileSpecW (os.GetModuleFileNameW 0 MAX_PATH)).length + 14 ∧
    (timelapseExe os).length ≤ 273 ∧
    "\\Timelapse.exe".data <:+ (timelapseExe os).data ∧
    ("\\".data <:+ (os.PathRemoveFileSpecW (os.GetModuleFileNameW 0 MAX_PATH)).data →
      "\\\\Timelapse.exe".data <:+ (timelapseExe os).data) ∧
    (os.PathRemoveFileSpecW (os.GetModuleFileNameW 0 MAX_PATH) = "C:\\" →
      timelapseExe os = "C:\\\\Timelapse.exe") ∧
    Effect.PathFileExistsW (timelapseExe os) ∈
      (WinMain os hInstance hPrevInstance lpCmdLine nCmdShow).trace := by
  have hlen : (timelapseExe os).length =
      (os.PathRemoveFileSpecW (os.GetModuleFileNameW 0 MAX_PATH)).length + 14 := by
    unfold timelapseExe exeDir selfPath
    rw [String.length_append]
    rfl
  refine ⟨hlen, by omega, ?_, ?_, ?_, ?_⟩
  · unfold timelapseExe
    rw [String.data_append]
    exact List.suffix_append _ _
  · intro hs
    obtain ⟨pre, hpre⟩ := hs
    refine ⟨pre, ?_⟩
    unfold timelapseExe exeDir selfPath
    rw [String.data_append, ← hpre, List.append_assoc]
    rfl
  · intro hroot
    unfold timelapseExe exeDir selfPath
    rw [hroot]
    rfl
  · rcases WinMain_cases os hInstance hPrevInstance lpCmdLine nCmdShow with
      h | h | h | h <;> rw [h.2] <;> simp [probe]

/-- Sample run for C10: installed in the root of drive C the launcher probes
`C:\\Timelapse.exe`, 17 characters long. -/
theorem target_path_shape_witness :
    (rootOS.PathRemoveFileSpecW (rootOS.GetModuleFileNameW 0 MAX_PATH)).length ≤ 259 ∧
    rootOS.PathRemoveFileSpecW (rootOS.GetModuleFileNameW 0 MAX_PATH) = "C:\\" ∧
    timelapseExe rootOS = "C:\\\\Timelapse.exe" ∧
    (timelapseExe rootOS).length = 17 :=
  have h := target_path_shape rootOS 1 0 "" 1 (by decide)
  ⟨by decide, by decide, h.2.2.2.2.1 (by decide), h.1.trans (by decide)⟩

end TimelapseTemplateEditor
